import Mathlib

/-!
Verification of the usage-metering and quota-enforcement subsystem of the
voice-agent server (`src/migrate-tts.js`, updated server document starting at
line 1087; table shapes from `src/database/schema.sql` and the `tts_usage`
migration at the top of `src/migrate-tts.js`).

Modelling conventions:
- SQL tables are lists of rows.  The `usage` table carries a PRIMARY KEY `id`
  and a UNIQUE(user_id, date) constraint (schema.sql lines 37, 43); the code
  SELECTs the row for (user_id, date) and then UPDATEs it by its primary key.
  Under the uniqueness constraints this is the same as updating the first
  (only) row matching (user_id, date), so rows are modelled without the
  surrogate `id` and the UPDATE as an update of the first matching row.
- Calendar dates (`date`, `DATE(created_at)`, the first day of the month) are
  modelled as natural-number day indices; `date >= firstDayOfMonth` becomes a
  `≤` comparison on day indices.
- DECIMAL / JS number arithmetic on minutes is modelled with exact rationals
  (`ℚ`); floating-point rounding noise is not modelled.
- Downstream provider calls are opaque: the chat completion is an
  `Except Nat String` (non-2xx status, or the response text), the TTS
  synthesis an `Option String` (audio content, `none` for any thrown
  failure).  A ledger-write fault is an explicit boolean.
-/

namespace VoiceAgent

/-- A row of the `users` table (schema.sql lines 16-26): surrogate id, email,
role (`admin` or `student`) and the monthly minute allowance. -/
structure UserRow where
  id : Nat
  email : String
  role : String
  minutes_limit : Int
deriving Repr, DecidableEq

/-- A row of the `usage` table (schema.sql lines 36-44), keyed by
(user_id, date) per the UNIQUE constraint; `minutes_used` is the
accumulated minute total for that user and day. -/
structure UsageRow where
  user_id : Nat
  date : Nat
  minutes_used : ℚ
deriving Repr, DecidableEq

/-- A row of the `tts_usage` table (migrate-tts.js lines 19-23): one row per
premium TTS invocation; `day` models `DATE(created_at)`. -/
structure TTSRow where
  user_id : Nat
  day : Nat
deriving Repr, DecidableEq

/-- The store state the metered endpoints touch: the three tables plus the
parsed `tts_daily_limit` row of `api_configs` (`none` when the key is
absent). -/
structure DB where
  users : List UserRow
  usage : List UsageRow
  tts : List TTSRow
  tts_daily_limit_cfg : Option Nat
deriving Repr, DecidableEq

/-- `SELECT minutes_used FROM usage WHERE user_id = $1 AND date = $2`
(migrate-tts.js lines 1396-1399 / 1554-1557): the value of the (unique) row
for (user, day), if any. -/
def findUsage (rows : List UsageRow) (uid day : Nat) : Option ℚ :=
  (rows.find? (fun r => r.user_id == uid && r.date == day)).map (·.minutes_used)

/-- The stored minute total for (user, day), reading 0 when no row exists
(`COALESCE(SUM(minutes_used), 0)` over the single row). -/
def valueAt (rows : List UsageRow) (uid day : Nat) : ℚ :=
  (findUsage rows uid day).getD 0

/-- `UPDATE usage SET minutes_used = minutes_used + $1 WHERE id = $2`
(lines 1402-1405 / 1560-1563): add `amt` to the first (unique) row matching
(user, day). -/
def updateFirst : List UsageRow → Nat → Nat → ℚ → List UsageRow
  | [], _, _, _ => []
  | r :: rs, uid, day, amt =>
    if r.user_id == uid && r.date == day then
      { r with minutes_used := r.minutes_used + amt } :: rs
    else
      r :: updateFirst rs uid day amt

/-- The usage-record step of POST /api/user/usage (lines 1396-1411) and of
POST /api/chat (lines 1554-1569): SELECT the (user, day) row, then either
UPDATE it by adding the amount or INSERT a fresh row holding the amount. -/
def recordMinutes (rows : List UsageRow) (uid day : Nat) (amount : ℚ) : List UsageRow :=
  match findUsage rows uid day with
  | some _ => updateFirst rows uid day amount
  | none => rows ++ [⟨uid, day, amount⟩]

/-- `SELECT COALESCE(SUM(minutes_used), 0) FROM usage WHERE user_id = $1 AND
date >= $2` (lines 1441-1443): the user's minute total since the first day of
the current month. -/
def monthlyTotal (rows : List UsageRow) (uid firstDay : Nat) : ℚ :=
  ((rows.filter (fun r => r.user_id == uid && decide (firstDay ≤ r.date))).map
    (·.minutes_used)).sum

/-- `userLimits.rows[0]?.minutes_limit || 120` (line 1455): the user's
`minutes_limit`, falling back to 120 when the user row is missing or the
stored limit is 0 (JS `||` treats 0 as falsy). -/
def userMinutesLimit (users : List UserRow) (uid : Nat) : Int :=
  match users.find? (fun u => u.id == uid) with
  | some u => if u.minutes_limit = 0 then 120 else u.minutes_limit
  | none => 120

/-- Result of the pre-flight check of POST /api/chat: admitted flag plus the
figures the denial response reports. -/
structure AdmitConv where
  admitted : Bool
  monthlyUsed : ℚ
  monthlyLimit : Int
deriving Repr, DecidableEq

/-- The pre-flight admission check of POST /api/chat (lines 1440-1464): read
the monthly minute total and the user's limit; the request proceeds exactly
when `monthlyMinutes >= minutesLimit` is false. -/
def admitConversation (db : DB) (uid firstDay : Nat) : AdmitConv :=
  let used := monthlyTotal db.usage uid firstDay
  let lim := userMinutesLimit db.users uid
  { admitted := decide (used < (lim : ℚ)), monthlyUsed := used, monthlyLimit := lim }

/-- `settingsResult.rows.length > 0 ? parseInt(config_value) : 15`
(lines 1725-1730): the configured daily TTS limit, 15 when the
`tts_daily_limit` config row is absent. -/
def ttsDailyLimit (db : DB) : Nat :=
  db.tts_daily_limit_cfg.getD 15

/-- `SELECT COUNT(*) FROM tts_usage WHERE user_id = $1 AND DATE(created_at) =
$2` (lines 1733-1738): the user's TTS call count for the given day. -/
def ttsCountToday (rows : List TTSRow) (uid today : Nat) : Nat :=
  (rows.filter (fun r => r.user_id == uid && r.day == today)).length

/-- Result of the pre-flight check of POST /api/tts. -/
structure AdmitTTS where
  admitted : Bool
  usedToday : Nat
  dailyLimit : Nat
deriving Repr, DecidableEq

/-- The pre-flight admission check of POST /api/tts (lines 1724-1750): read
the configured daily limit and today's count; the request proceeds exactly
when `usedToday >= dailyLimit` is false. -/
def admitTTS (db : DB) (uid today : Nat) : AdmitTTS :=
  let lim := ttsDailyLimit db
  let used := ttsCountToday db.tts uid today
  { admitted := decide (used < lim), usedToday := used, dailyLimit := lim }

/-- JS `\s` on the ASCII range (space, tab, line feed, carriage return,
vertical tab, form feed); the Unicode space characters are not modelled. -/
def isJsWhitespace (c : Char) : Bool :=
  c == ' ' || c == '\t' || c == '\n' || c == '\r' || c == '\x0b' || c == '\x0c'

/-- Prepend a character to the first segment of a split result. -/
def consHead (c : Char) : List (List Char) → List (List Char)
  | [] => [[c]]
  | s :: ss => (c :: s) :: ss

/-- JS `String.prototype.split(/\s+/)`: the segments between maximal
whitespace runs, including an empty leading segment when the string starts
with whitespace and an empty trailing segment when it ends with whitespace;
the empty string yields a single empty segment. -/
def splitWS : List Char → List (List Char)
  | [] => [[]]
  | c :: cs =>
    if isJsWhitespace c then
      match cs with
      | c2 :: cs2 =>
        if isJsWhitespace c2 then splitWS (c2 :: cs2) else [] :: splitWS (c2 :: cs2)
      | [] => [[], []]
    else
      consHead c (splitWS cs)

/-- `assistantMessage.split(/\s+/).length` (line 1550). -/
def wordCount (s : String) : Nat :=
  (splitWS s.data).length

/-- Floor of a rational, computed from its normalised numerator and
denominator by flooring integer division. -/
def ratFloor (q : ℚ) : ℤ :=
  q.num.fdiv (q.den : ℤ)

/-- JS `Math.round`: round half toward positive infinity. -/
def jsRound (x : ℚ) : ℤ :=
  ratFloor (x + 1/2)

/-- `Math.round((wordCount / 150) * 100) / 100` (line 1551): the estimated
minute cost of a chat response. -/
def estimatedMinutes (text : String) : ℚ :=
  ((jsRound (((wordCount text : ℚ) / 150) * 100) : ℚ)) / 100

/-- The number of whitespace-separated tokens of a string, following the
words of the claim: the nonempty segments of the whitespace split.  Kept
separate from `wordCount` to compare the two. -/
def whitespaceTokenCount (s : String) : Nat :=
  ((splitWS s.data).filter (fun seg => !seg.isEmpty)).length

/-- The cost formula as the claim words it: two-decimal rounding of
(whitespace-separated token count) / 150. -/
def specChatCost (s : String) : ℚ :=
  ((jsRound (((whitespaceTokenCount s : ℚ) / 150) * 100) : ℚ)) / 100

/-- The JSON body and status a POST /api/chat request is answered with;
fields absent from a branch's body are `none`. -/
structure ChatResponse where
  status : Nat
  response : Option String
  minutes_used : Option ℚ
  minutes_limit : Option Int
  error : Option String
deriving Repr, DecidableEq

/-- POST /api/chat (lines 1426-1583), for a request whose `message` is
present: quota pre-flight (deny with 429 carrying the used total and limit),
downstream completion call (non-2xx propagates the provider status, no
write), cost computation, usage record (a ledger-write fault is caught by the
endpoint's catch-all, which answers 500), success response. -/
def chatEndpoint (db : DB) (uid today firstDay : Nat)
    (downstream : Except Nat String) (recordFails : Bool) : ChatResponse × DB :=
  let a := admitConversation db uid firstDay
  if a.admitted = false then
    ({ status := 429, response := none, minutes_used := some a.monthlyUsed,
       minutes_limit := some a.monthlyLimit,
       error := some "Limite mensile raggiunto" }, db)
  else
    match downstream with
    | .error s =>
      ({ status := s, response := none, minutes_used := none, minutes_limit := none,
         error := some "Errore API Anthropic" }, db)
    | .ok text =>
      let est := estimatedMinutes text
      if recordFails then
        ({ status := 500, response := none, minutes_used := none, minutes_limit := none,
           error := some "Errore durante la chat" }, db)
      else
        ({ status := 200, response := some text, minutes_used := some est,
           minutes_limit := none, error := none },
         { db with usage := recordMinutes db.usage uid today est })

/-- The JSON body and status a POST /api/tts request is answered with. -/
structure TTSResponse where
  status : Nat
  audioContent : Option String
  usedToday : Option Nat
  dailyLimit : Option Nat
  fallbackToLocal : Option Bool
  error : Option String
deriving Repr, DecidableEq

/-- `trackTTSUsage` (lines 1695-1704): insert one `tts_usage` row; its own
try/catch swallows an insert fault, so a failure leaves the table unchanged
and is only logged. -/
def trackTTSUsage (rows : List TTSRow) (uid today : Nat) (insertFails : Bool) :
    List TTSRow :=
  if insertFails then rows else rows ++ [⟨uid, today⟩]

/-- POST /api/tts (lines 1711-1844): missing text is a 400; quota pre-flight
denies with 429 carrying `usedToday`, `dailyLimit` and `fallbackToLocal:
true`; any thrown failure (missing key, non-2xx synthesis) reaches the catch
branch, a 500 with `fallbackToLocal: true` and no write; on success the call
is tracked (fault swallowed) and the audio returned with 200. -/
def ttsEndpoint (db : DB) (uid today : Nat) (text : String)
    (downstream : Option String) (recordFails : Bool) : TTSResponse × DB :=
  if text = "" then
    ({ status := 400, audioContent := none, usedToday := none, dailyLimit := none,
       fallbackToLocal := none, error := some "Text is required" }, db)
  else
    let a := admitTTS db uid today
    if a.admitted = false then
      ({ status := 429, audioContent := none, usedToday := some a.usedToday,
         dailyLimit := some a.dailyLimit, fallbackToLocal := some true,
         error := some "Daily premium TTS limit reached" }, db)
    else
      match downstream with
      | none =>
        ({ status := 500, audioContent := none, usedToday := none, dailyLimit := none,
           fallbackToLocal := some true, error := some "Text-to-speech failed" }, db)
      | some audio =>
        ({ status := 200, audioContent := some audio, usedToday := some (a.usedToday + 1),
           dailyLimit := some a.dailyLimit, fallbackToLocal := none, error := none },
         { db with tts := trackTTSUsage db.tts uid today recordFails })

/-- A JSON scalar as stored in the JWT payload. -/
inductive JsValue where
  | num (n : Nat)
  | str (s : String)
deriving Repr, DecidableEq

/-- The JWT payload signed at login and registration (lines 1236-1240 and
1291-1295): `{ userId: user.id, email: user.email, role: user.role }`,
modelled as the field list of the object. -/
def signPayload (u : UserRow) : List (String × JsValue) :=
  [("userId", .num u.id), ("email", .str u.email), ("role", .str u.role)]

/-- JS property access on the decoded token (`req.user` is set to the
verified payload at line 1179): `some` the stored value, `none` (undefined)
when the field is absent. -/
def jsGet (obj : List (String × JsValue)) (field : String) : Option JsValue :=
  (obj.find? (fun p => p.1 == field)).map (·.2)

/-- The identifier the minutes endpoints key their queries by:
`req.user.userId` (lines 1443, 1447, 1556, 1567). -/
def chatUserKey (tok : List (String × JsValue)) : Option JsValue :=
  jsGet tok "userId"

/-- The identifier the TTS endpoints key their queries by: `req.user.id`
(lines 1658 and 1715). -/
def ttsUserKey (tok : List (String × JsValue)) : Option JsValue :=
  jsGet tok "id"

/-- Modelled from the spec: §5 and §6 require the store layer to expose an
atomic `upsertAddMinutes(userId, day, amount)` ("upsert with additive
merge") primitive; it is absent from src, which issues the SELECT and the
UPDATE/INSERT as separate statements.  Its accumulate-or-create behaviour
follows §4.3; atomicity is expressed by making one application of it a
single indivisible step of the concurrency model below. -/
def upsertAddMinutes (rows : List UsageRow) (uid day : Nat) (amount : ℚ) :
    List UsageRow :=
  match findUsage rows uid day with
  | some _ => updateFirst rows uid day amount
  | none => rows ++ [⟨uid, day, amount⟩]

/-- An atomic store operation of a concurrent worker. -/
inductive StoreOp where
  | upsertAdd (uid day : Nat) (amount : ℚ)
deriving Repr, DecidableEq

/-- Apply one atomic store operation. -/
def applyOp (rows : List UsageRow) : StoreOp → List UsageRow
  | .upsertAdd uid day amount => upsertAddMinutes rows uid day amount

/-- Overwrite every user's role, leaving everything else in the store
untouched; used to state that the admission checks never consult roles. -/
def setRoles (db : DB) (r : String) : DB :=
  { db with users := db.users.map (fun u => { u with role := r }) }

/-- A store holding one user with role `admin` whose recorded usage sits at
both limits: monthly minutes 999999 of a 999999 allowance (the allowance
registration grants admins, migrate-tts.js line 1222) and 15 TTS calls today
against the default daily limit of 15. -/
def adminDB : DB :=
  { users := [⟨1, "admin@voiceagent.com", "admin", 999999⟩]
    usage := [⟨1, 0, 999999⟩]
    tts := List.replicate 15 ⟨1, 0⟩
    tts_daily_limit_cfg := none }

/-- A store holding one student at exactly both limits: monthly minutes 120
of 120, and 15 TTS calls today against the default daily limit 15. -/
def atLimitDB : DB :=
  { users := [⟨1, "student@example.com", "student", 120⟩]
    usage := [⟨1, 0, 120⟩]
    tts := List.replicate 15 ⟨1, 0⟩
    tts_daily_limit_cfg := none }

/-- A store holding one student with no recorded usage at all. -/
def freshDB : DB :=
  { users := [⟨1, "student@example.com", "student", 120⟩]
    usage := []
    tts := []
    tts_daily_limit_cfg := none }

/-! ### Ledger lemmas -/

lemma findUsage_updateFirst {rows : List UsageRow} {uid day : Nat} {v : ℚ} (a : ℚ)
    (h : findUsage rows uid day = some v) :
    findUsage (updateFirst rows uid day a) uid day = some (v + a) := by
  induction rows with
  | nil => simp [findUsage] at h
  | cons r rs ih =>
    by_cases hc : (r.user_id == uid && r.date == day) = true
    · simp [findUsage, List.find?, hc] at h
      simp [updateFirst, hc, findUsage, List.find?, h]
    · simp only [Bool.not_eq_true] at hc
      simp only [findUsage, List.find?, hc] at h
      simp only [updateFirst, hc, Bool.false_eq_true, if_false, findUsage, List.find?]
      exact ih h

lemma findUsage_insert {rows : List UsageRow} {uid day : Nat} (a : ℚ)
    (h : findUsage rows uid day = none) :
    findUsage (rows ++ [⟨uid, day, a⟩]) uid day = some a := by
  induction rows with
  | nil => simp [findUsage, List.find?]
  | cons r rs ih =>
    by_cases hc : (r.user_id == uid && r.date == day) = true
    · simp [findUsage, List.find?, hc] at h
    · simp only [Bool.not_eq_true] at hc
      simp only [findUsage, List.find?, hc] at h
      simp only [List.cons_append, findUsage, List.find?, hc]
      exact ih h

lemma findUsage_recordMinutes (rows : List UsageRow) (uid day : Nat) (a : ℚ) :
    findUsage (recordMinutes rows uid day a) uid day
      = some (valueAt rows uid day + a) := by
  cases h : findUsage rows uid day with
  | none =>
    simp only [recordMinutes, h, valueAt, Option.getD_none]
    rw [findUsage_insert a h, zero_add]
  | some v =>
    simp only [recordMinutes, h, valueAt, Option.getD_some]
    exact findUsage_updateFirst a h

lemma valueAt_recordMinutes (rows : List UsageRow) (uid day : Nat) (a : ℚ) :
    valueAt (recordMinutes rows uid day a) uid day = valueAt rows uid day + a := by
  simp [valueAt, findUsage_recordMinutes]

lemma valueAt_foldl_recordMinutes (uid day : Nat) :
    ∀ (amounts : List ℚ) (rows : List UsageRow),
      valueAt (amounts.foldl (fun rs x => recordMinutes rs uid day x) rows) uid day
        = valueAt rows uid day + amounts.sum
  | [], rows => by simp
  | a :: as, rows => by
    simp only [List.foldl_cons, List.sum_cons]
    rw [valueAt_foldl_recordMinutes uid day as (recordMinutes rows uid day a),
      valueAt_recordMinutes]
    ring

lemma upsertAddMinutes_eq_recordMinutes :
    upsertAddMinutes = recordMinutes := rfl

lemma valueAt_applyOp (rows : List UsageRow) (uid day : Nat) (q : ℚ) :
    valueAt (applyOp rows (.upsertAdd uid day q)) uid day = valueAt rows uid day + q := by
  simp only [applyOp, upsertAddMinutes_eq_recordMinutes]
  exact valueAt_recordMinutes rows uid day q

lemma valueAt_foldl_ops (uid day : Nat) :
    ∀ (ops : List StoreOp) (rows : List UsageRow),
      (∀ op ∈ ops, op = StoreOp.upsertAdd uid day 1) →
      valueAt (ops.foldl applyOp rows) uid day
        = valueAt rows uid day + ops.length
  | [], rows, _ => by simp
  | op :: ops, rows, h => by
    have hop : op = StoreOp.upsertAdd uid day 1 := h op (List.mem_cons_self op ops)
    have hrest : ∀ o ∈ ops, o = StoreOp.upsertAdd uid day 1 :=
      fun o ho => h o (List.mem_cons_of_mem op ho)
    simp only [List.foldl_cons, List.length_cons, hop]
    rw [valueAt_foldl_ops uid day ops (applyOp rows (.upsertAdd uid day 1)) hrest,
      valueAt_applyOp]
    push_cast
    ring

/-! ### Role-invariance lemmas -/

lemma find?_setRoles (users : List UserRow) (uid : Nat) (r : String) :
    ((users.map (fun u => { u with role := r })).find? (fun u => u.id == uid))
      = (users.find? (fun u => u.id == uid)).map (fun u => { u with role := r }) := by
  induction users with
  | nil => rfl
  | cons u us ih =>
    by_cases hc : (u.id == uid) = true
    · simp [List.find?, hc]
    · simp only [Bool.not_eq_true] at hc
      simp [List.find?, hc, ih]

lemma userMinutesLimit_setRoles (users : List UserRow) (uid : Nat) (r : String) :
    userMinutesLimit (users.map (fun u => { u with role := r })) uid
      = userMinutesLimit users uid := by
  unfold userMinutesLimit
  rw [find?_setRoles]
  cases users.find? (fun u => u.id == uid) <;> rfl

/-! ### Claim theorems -/

section ConcreteEvaluation

attribute [local semireducible] Rat.add Rat.mul Rat.inv Rat.sub

/-- C1, counterexample: `adminDB` holds a user whose role is `admin` with
monthly minutes at the allowance and 15 TTS calls today; both pre-flight
checks deny, refuting the claim that `admitConversation` and `admitTTS`
return admitted=true for an admin at any usage level. -/
theorem admin_at_limit_denied_cex :
    ((adminDB.users.find? (fun u => u.id == 1)).map (fun u => u.role) = some "admin")
    ∧ (admitConversation adminDB 1 0).admitted = false
    ∧ (admitTTS adminDB 1 0).admitted = false := by
  decide

end ConcreteEvaluation

/-- C1, amended: neither admission check consults the user's role — both
checks return identical results after every user's role is overwritten with
an arbitrary value, so a user with role `admin` is denied at the limits
exactly like any other user (only the large allowance granted at
registration separates admins). -/
theorem admission_checks_ignore_role (db : DB) (r : String) (uid firstDay today : Nat) :
    admitConversation (setRoles db r) uid firstDay = admitConversation db uid firstDay
    ∧ admitTTS (setRoles db r) uid today = admitTTS db uid today := by
  constructor
  · simp [admitConversation, setRoles, userMinutesLimit_setRoles]
  · rfl

/-- C4: for a fixed (user, day), sequentially executing any finite list of
`recordMinutes` amounts starting from a ledger with no row for that key
leaves a stored value equal to the sum of the amounts; the first recording
creates a row holding exactly the recorded amount, and a recording against
an existing row increments it rather than overwriting it. -/
theorem recordMinutes_accumulates (rows0 : List UsageRow) (uid day : Nat)
    (amounts : List ℚ) (h : findUsage rows0 uid day = none) :
    valueAt (amounts.foldl (fun rs a => recordMinutes rs uid day a) rows0) uid day
      = amounts.sum
    ∧ (∀ a : ℚ, findUsage (recordMinutes rows0 uid day a) uid day = some a)
    ∧ (∀ (rows : List UsageRow) (v a : ℚ), findUsage rows uid day = some v →
        findUsage (recordMinutes rows uid day a) uid day = some (v + a)) := by
  refine ⟨?_, ?_, ?_⟩
  · rw [valueAt_foldl_recordMinutes]
    simp [valueAt, h]
  · intro a
    rw [findUsage_recordMinutes]
    simp [valueAt, h]
  · intro rows v a hv
    rw [findUsage_recordMinutes]
    simp [valueAt, hv]

/-- Witness for `recordMinutes_accumulates`: three recordings of 3, 2 and
1/2 minutes for (user 1, day 0) on an empty ledger end at their sum, and a
first recording of 5 creates a row holding 5. -/
theorem recordMinutes_accumulates_witness :
    valueAt ([(3:ℚ), 2, 1/2].foldl (fun rs a => recordMinutes rs 1 0 a) []) 1 0
      = ([(3:ℚ), 2, 1/2]).sum
    ∧ findUsage (recordMinutes ([] : List UsageRow) 1 0 5) 1 0 = some 5 :=
  ⟨(recordMinutes_accumulates [] 1 0 [3, 2, 1/2] rfl).1,
   (recordMinutes_accumulates [] 1 0 [3, 2, 1/2] rfl).2.1 5⟩

/-- C9: spec-modelled atomic additive upsert — for every N, every
interleaving of N concurrent workers that each execute one atomic
`upsertAddMinutes(user, sameDay, 1)` step (any permutation of the N
single-step programs) ends, from a ledger with no row for the key, at a
stored total of exactly N: no lost updates under any interleaving. -/
theorem atomic_upsert_interleavings_sum (n uid day : Nat) (rows0 : List UsageRow)
    (ops : List StoreOp)
    (hperm : ops.Perm (List.replicate n (StoreOp.upsertAdd uid day 1)))
    (h0 : findUsage rows0 uid day = none) :
    valueAt (ops.foldl applyOp rows0) uid day = n := by
  have hall : ∀ op ∈ ops, op = StoreOp.upsertAdd uid day 1 := by
    intro op hop
    exact List.eq_of_mem_replicate (hperm.subset hop)
  have hlen : ops.length = n := by
    simpa using hperm.length_eq
  rw [valueAt_foldl_ops uid day ops rows0 hall, hlen]
  simp [valueAt, h0]

/-- Witness for `atomic_upsert_interleavings_sum`: two concurrent atomic
upserts of 1 on an empty ledger end at total 2. -/
theorem atomic_upsert_interleavings_sum_witness :
    valueAt (([StoreOp.upsertAdd 1 0 1, StoreOp.upsertAdd 1 0 1]).foldl applyOp []) 1 0
      = ((2 : Nat) : ℚ) :=
  atomic_upsert_interleavings_sum 2 1 0 []
    [StoreOp.upsertAdd 1 0 1, StoreOp.upsertAdd 1 0 1] (List.Perm.refl _) rfl

section ConcreteEvaluationTwo

attribute [local semireducible] Rat.add Rat.mul Rat.inv Rat.sub

/-- C2: the pre-flight check of POST /api/tts denies exactly when the
user's TTS call count for the current day reaches the configured daily
limit; the figures it reports are that count and limit; the limit is 15
whenever no `tts_daily_limit` config row exists; and, for a nonempty text,
the endpoint answers 429 exactly when the check denies. -/
theorem admitTTS_denies_iff_limit_reached (db : DB) (uid today : Nat) :
    ((admitTTS db uid today).admitted = false
       ↔ ttsDailyLimit db ≤ ttsCountToday db.tts uid today)
    ∧ (admitTTS db uid today).usedToday = ttsCountToday db.tts uid today
    ∧ (admitTTS db uid today).dailyLimit = ttsDailyLimit db
    ∧ (db.tts_daily_limit_cfg = none → ttsDailyLimit db = 15)
    ∧ (∀ (text : String) (ds : Option String) (rf : Bool), text ≠ "" →
        ((ttsEndpoint db uid today text ds rf).1.status = 429
          ↔ (admitTTS db uid today).admitted = false)) := by
  refine ⟨?_, rfl, rfl, ?_, ?_⟩
  · simp [admitTTS, decide_eq_false_iff_not, not_lt]
  · intro h
    simp [ttsDailyLimit, h]
  · intro text ds rf ht
    by_cases hA : (admitTTS db uid today).admitted = false
    · simp [ttsEndpoint, ht, hA]
    · cases ds <;> simp [ttsEndpoint, ht, hA]

/-- Witness for `admitTTS_denies_iff_limit_reached`: the student of
`atLimitDB` has 15 TTS calls today against the default limit 15, so the
check denies and the endpoint answers 429. -/
theorem admitTTS_denies_iff_limit_reached_witness :
    ((admitTTS atLimitDB 1 0).admitted = false
       ↔ ttsDailyLimit atLimitDB ≤ ttsCountToday atLimitDB.tts 1 0)
    ∧ ttsDailyLimit atLimitDB = 15
    ∧ (ttsEndpoint atLimitDB 1 0 "hi" (some "AUDIO") false).1.status = 429 := by
  have h := admitTTS_denies_iff_limit_reached atLimitDB 1 0
  exact ⟨h.1, h.2.2.2.1 rfl,
    (h.2.2.2.2 "hi" (some "AUDIO") false (by decide)).mpr (by decide)⟩

/-- C3: the pre-flight check of POST /api/chat denies exactly when the
monthly minute total reaches the user's effective minutes limit
(`minutes_limit`, read as 120 when the user row is missing or the stored
limit is 0); a total exactly equal to the limit is denied; and a denied
request is answered with status 429 — distinct from the generic 500 error —
carrying the used total and the limit. -/
theorem admitConversation_denies_iff_monthly_limit_reached (db : DB) (uid firstDay : Nat) :
    ((admitConversation db uid firstDay).admitted = false
       ↔ (userMinutesLimit db.users uid : ℚ) ≤ monthlyTotal db.usage uid firstDay)
    ∧ (monthlyTotal db.usage uid firstDay = (userMinutesLimit db.users uid : ℚ) →
        (admitConversation db uid firstDay).admitted = false)
    ∧ (admitConversation db uid firstDay).monthlyUsed = monthlyTotal db.usage uid firstDay
    ∧ (admitConversation db uid firstDay).monthlyLimit = userMinutesLimit db.users uid
    ∧ ((admitConversation db uid firstDay).admitted = false →
        ∀ (today : Nat) (ds : Except Nat String) (rf : Bool),
          chatEndpoint db uid today firstDay ds rf
            = ({ status := 429, response := none,
                 minutes_used := some (monthlyTotal db.usage uid firstDay),
                 minutes_limit := some (userMinutesLimit db.users uid),
                 error := some "Limite mensile raggiunto" }, db)
          ∧ (429 : Nat) ≠ 500) := by
  have h1 : (admitConversation db uid firstDay).admitted = false
      ↔ (userMinutesLimit db.users uid : ℚ) ≤ monthlyTotal db.usage uid firstDay := by
    simp [admitConversation, decide_eq_false_iff_not, not_lt]
  refine ⟨h1, fun he => h1.mpr (le_of_eq he.symm), rfl, rfl,
    fun h today ds rf => ⟨?_, by decide⟩⟩
  simp [chatEndpoint, h]
  exact ⟨rfl, rfl⟩

/-- Witness for `admitConversation_denies_iff_monthly_limit_reached`: the
student of `atLimitDB` has a monthly total of exactly 120 against a limit of
120; the boundary denies and the endpoint answers 429. -/
theorem admitConversation_denies_iff_monthly_limit_reached_witness :
    (admitConversation atLimitDB 1 0).admitted = false
    ∧ (chatEndpoint atLimitDB 1 0 0 (Except.ok "x") false).1.status = 429 := by
  have h := admitConversation_denies_iff_monthly_limit_reached atLimitDB 1 0
  have hd : (admitConversation atLimitDB 1 0).admitted = false := h.1.mpr (by decide)
  refine ⟨hd, ?_⟩
  rw [(h.2.2.2.2 hd 0 (Except.ok "x") false).1]

/-- C5, amended: for a successful conversation call the cost recorded to the
ledger and returned to the caller equals round(wordCount(responseText)/150,
2 decimals) where wordCount is the length of the JS split
`responseText.split(/\s+/)` — which counts one extra empty segment for
leading or trailing whitespace (and one segment for the empty string)
rather than the number of whitespace-separated tokens; consequently two
responses with equal split-segment counts always incur equal cost. -/
theorem chat_cost_from_split_segment_count (db : DB) (uid today firstDay : Nat)
    (text : String)
    (h : (admitConversation db uid firstDay).admitted = true) :
    ((chatEndpoint db uid today firstDay (Except.ok text) false).1.minutes_used
        = some (estimatedMinutes text)
      ∧ valueAt (chatEndpoint db uid today firstDay (Except.ok text) false).2.usage uid today
        = valueAt db.usage uid today + estimatedMinutes text
      ∧ estimatedMinutes text
        = ((jsRound (((wordCount text : ℚ) / 150) * 100) : ℚ)) / 100)
    ∧ (∀ t1 t2 : String, wordCount t1 = wordCount t2
        → estimatedMinutes t1 = estimatedMinutes t2) := by
  have hne : ¬ ((admitConversation db uid firstDay).admitted = false) := by simp [h]
  refine ⟨⟨?_, ?_, rfl⟩, ?_⟩
  · simp [chatEndpoint, hne]
  · simp [chatEndpoint, hne, valueAt_recordMinutes]
  · intro t1 t2 ht
    unfold estimatedMinutes
    rw [ht]

/-- Witness for `chat_cost_from_split_segment_count`: a fresh student's
successful call with response "hello there" returns and records the
two-decimal rounding of wordCount/150. -/
theorem chat_cost_from_split_segment_count_witness :
    (chatEndpoint freshDB 1 0 0 (Except.ok "hello there") false).1.minutes_used
      = some (estimatedMinutes "hello there")
    ∧ estimatedMinutes "hello there"
      = ((jsRound (((wordCount "hello there" : ℚ) / 150) * 100) : ℚ)) / 100 := by
  have h := chat_cost_from_split_segment_count freshDB 1 0 0 "hello there" (by decide)
  exact ⟨h.1.1, h.1.2.2⟩

/-- C5, counterexample: the responses " a b" (leading space) and "a b" both
consist of two whitespace-separated tokens, yet the code's split-segment
counts are 3 and 2, so the recorded costs differ (0.02 vs 0.01) and the
cost of " a b" is not round(tokenCount/150, 2 decimals). -/
theorem chat_cost_token_count_cex :
    whitespaceTokenCount " a b" = whitespaceTokenCount "a b"
    ∧ estimatedMinutes " a b" ≠ estimatedMinutes "a b"
    ∧ estimatedMinutes " a b" ≠ specChatCost " a b"
    ∧ (chatEndpoint freshDB 1 0 0 (Except.ok " a b") false).1.minutes_used
        = some (estimatedMinutes " a b") := by
  decide

/-- C6: no cost is ever recorded on an error path — on quota denial both
endpoints return with the store unchanged for every downstream outcome (the
invocation terminates before the downstream call), and on downstream
provider failure both endpoints return with the store unchanged. -/
theorem no_usage_recorded_on_denied_or_failed_call (db : DB)
    (uid today firstDay : Nat) (text : String) :
    ((admitConversation db uid firstDay).admitted = false →
        ∀ (ds : Except Nat String) (rf : Bool),
          (chatEndpoint db uid today firstDay ds rf).2 = db)
    ∧ (∀ (s : Nat) (rf : Bool),
        (chatEndpoint db uid today firstDay (Except.error s) rf).2 = db)
    ∧ ((admitTTS db uid today).admitted = false →
        ∀ (ds : Option String) (rf : Bool),
          (ttsEndpoint db uid today text ds rf).2 = db)
    ∧ (∀ (rf : Bool), (ttsEndpoint db uid today text none rf).2 = db) := by
  refine ⟨?_, ?_, ?_, ?_⟩
  · intro h ds rf
    simp [chatEndpoint, h]
  · intro s rf
    by_cases h : (admitConversation db uid firstDay).admitted = false <;>
      simp [chatEndpoint, h]
  · intro h ds rf
    by_cases htext : text = "" <;> simp [ttsEndpoint, htext, h]
  · intro rf
    by_cases htext : text = ""
    · simp [ttsEndpoint, htext]
    · by_cases h : (admitTTS db uid today).admitted = false <;>
        simp [ttsEndpoint, htext, h]

/-- Witness for `no_usage_recorded_on_denied_or_failed_call`: at-limit
denials and provider failures all leave the concrete stores unchanged. -/
theorem no_usage_recorded_on_denied_or_failed_call_witness :
    (chatEndpoint atLimitDB 1 0 0 (Except.ok "hi") false).2 = atLimitDB
    ∧ (chatEndpoint freshDB 1 0 0 (Except.error 529) false).2 = freshDB
    ∧ (ttsEndpoint atLimitDB 1 0 "hi" (some "AUDIO") false).2 = atLimitDB
    ∧ (ttsEndpoint freshDB 1 0 "hi" none false).2 = freshDB := by
  have h1 := no_usage_recorded_on_denied_or_failed_call atLimitDB 1 0 0 "hi"
  have h2 := no_usage_recorded_on_denied_or_failed_call freshDB 1 0 0 "hi"
  exact ⟨h1.1 (by decide) (Except.ok "hi") false, h2.2.1 529 false,
    h1.2.2.1 (by decide) (some "AUDIO") false, h2.2.2.2 false⟩

/-- C7: the TTS endpoint reports `fallbackToLocal: true` in both failure
cases — on quota denial (together with usedToday and dailyLimit, under
status 429, distinct from the generic 500) and on downstream provider
failure (status 500). -/
theorem tts_fallback_to_local_on_denial_and_failure (db : DB) (uid today : Nat)
    (text : String) (ht : text ≠ "") :
    ((admitTTS db uid today).admitted = false →
        ∀ (ds : Option String) (rf : Bool),
          (ttsEndpoint db uid today text ds rf).1
            = { status := 429, audioContent := none,
                usedToday := some (admitTTS db uid today).usedToday,
                dailyLimit := some (admitTTS db uid today).dailyLimit,
                fallbackToLocal := some true,
                error := some "Daily premium TTS limit reached" }
          ∧ (429 : Nat) ≠ 500)
    ∧ ((admitTTS db uid today).admitted = true →
        ∀ (rf : Bool),
          (ttsEndpoint db uid today text none rf).1
            = { status := 500, audioContent := none, usedToday := none,
                dailyLimit := none, fallbackToLocal := some true,
                error := some "Text-to-speech failed" }) := by
  constructor
  · intro h ds rf
    refine ⟨?_, by decide⟩
    simp [ttsEndpoint, ht, h]
  · intro h rf
    have hne : ¬ ((admitTTS db uid today).admitted = false) := by simp [h]
    simp [ttsEndpoint, ht, hne]

/-- Witness for `tts_fallback_to_local_on_denial_and_failure`: the at-limit
denial and a provider failure under quota both carry the fallback flag. -/
theorem tts_fallback_to_local_on_denial_and_failure_witness :
    (ttsEndpoint atLimitDB 1 0 "hi" (some "AUDIO") false).1.fallbackToLocal = some true
    ∧ (ttsEndpoint freshDB 1 0 "hi" none false).1.fallbackToLocal = some true := by
  have h1 := tts_fallback_to_local_on_denial_and_failure atLimitDB 1 0 "hi" (by decide)
  have h2 := tts_fallback_to_local_on_denial_and_failure freshDB 1 0 "hi" (by decide)
  constructor
  · rw [(h1.1 (by decide) (some "AUDIO") false).1]
  · rw [h2.2 (by decide) false]

/-- C8, amended: after a successful downstream call, a failure of the
usage-recording step is swallowed only by the TTS endpoint — `trackTTSUsage`
catches the insert fault, the audio is still delivered with status 200 and
the store is unchanged; the conversation endpoint instead catches a
ledger-write fault in its single catch-all and answers a generic 500 error
without the downstream response text (the downstream call itself is not
rolled back). -/
theorem tts_recording_failure_swallowed_chat_not (db : DB)
    (uid today firstDay : Nat) (text audio : String) (ht : text ≠ "") :
    ((admitTTS db uid today).admitted = true →
      ((ttsEndpoint db uid today text (some audio) true).1
          = (ttsEndpoint db uid today text (some audio) false).1
        ∧ (ttsEndpoint db uid today text (some audio) true).1.status = 200
        ∧ (ttsEndpoint db uid today text (some audio) true).2 = db))
    ∧ ((admitConversation db uid firstDay).admitted = true →
        chatEndpoint db uid today firstDay (Except.ok text) true
          = ({ status := 500, response := none, minutes_used := none,
               minutes_limit := none, error := some "Errore durante la chat" }, db)) := by
  constructor
  · intro h
    have hne : ¬ ((admitTTS db uid today).admitted = false) := by simp [h]
    refine ⟨?_, ?_, ?_⟩ <;> simp [ttsEndpoint, ht, hne, trackTTSUsage]
  · intro h
    have hne : ¬ ((admitConversation db uid firstDay).admitted = false) := by simp [h]
    simp [chatEndpoint, hne]

/-- Witness for `tts_recording_failure_swallowed_chat_not`: a fresh
student's successful TTS call with a failing ledger write still gets the
200 response and leaves the store unchanged. -/
theorem tts_recording_failure_swallowed_chat_not_witness :
    (ttsEndpoint freshDB 1 0 "hi" (some "AUDIO") true).1.status = 200
    ∧ (ttsEndpoint freshDB 1 0 "hi" (some "AUDIO") true).2 = freshDB := by
  have h := tts_recording_failure_swallowed_chat_not freshDB 1 0 0 "hi" "AUDIO" (by decide)
  exact ⟨(h.1 (by decide)).2.1, (h.1 (by decide)).2.2⟩

/-- C8, counterexample: with the student of `freshDB` under quota, a
successful downstream response "hello there" combined with a failing ledger
write makes POST /api/chat answer the generic 500 error with no response
field — the already-produced downstream result is not delivered, refuting
the claim for the conversation recording. -/
theorem chat_recording_failure_drops_response_cex :
    (chatEndpoint freshDB 1 0 0 (Except.ok "hello there") true).1.status = 500
    ∧ (chatEndpoint freshDB 1 0 0 (Except.ok "hello there") true).1.response = none
    ∧ (chatEndpoint freshDB 1 0 0 (Except.ok "hello there") false).1.status = 200 := by
  decide

end ConcreteEvaluationTwo

/-- C10: the JWT payload signed at login and registration carries the fields
`userId`, `email` and `role` only, so the minutes endpoints
(`req.user.userId`) read the signed user id while the TTS endpoints
(`req.user.id`) read an absent field and get `undefined`. -/
theorem jwt_payload_user_identifier_fields (u : UserRow) :
    chatUserKey (signPayload u) = some (JsValue.num u.id)
    ∧ ttsUserKey (signPayload u) = none := by
  constructor <;> rfl

end VoiceAgent
